import Mathlib

/-!
Verification of the CTCL gene-explorer dashboard (`src/app.py`).

The app is a single-script dashboard: it loads an annotated cell-by-gene
matrix once per process, tracks a selected gene symbol in session state,
validates the symbol against the feature index, and renders an embedding
scatter plot, a per-condition distribution plot, and an automated insight
summary.  We embed the script's logic shallowly:

* numeric expression values are rationals (`ℚ`);
* the result of the pandas `Series.mean` call is `Option ℚ`, where `none`
  models the IEEE NaN that pandas returns for the mean of an empty
  selection (pandas raises no exception there); every comparison against
  a NaN operand is `false`, exactly as in IEEE/NumPy semantics;
* the two fallible reads of the expression column (`.toarray().flatten()`
  and the direct `.flatten()`) are `Option` fields of the column
  representation, `none` meaning the call raises;
* Python's `str.upper` is modelled on its ASCII fragment (gene symbols in
  the feature index are ASCII identifiers);
* the `st.cache_resource` decorator on `load_data` is modelled as an
  explicit process-state cache with a read counter for the file I/O.
-/

/-- ASCII-fragment model of Python's `str.upper` on a single character:
`a`..`z` (codes 97–122) map 32 codes down, everything else is unchanged. -/
def pyUpperChar (c : Char) : Char :=
  if 97 ≤ c.toNat ∧ c.toNat ≤ 122 then Char.ofNat (c.toNat - 32) else c

/-- Model of `str.upper` applied by `app.py` line 72 to the text input. -/
def pyUpper (s : String) : String :=
  ⟨s.data.map pyUpperChar⟩

/-- `true` iff the character is an ASCII lowercase letter. -/
def isAsciiLower (c : Char) : Bool :=
  decide (97 ≤ c.toNat ∧ c.toNat ≤ 122)

/-- Trend/colour classification of `app.py` lines 169–179, as a function of
the two (non-NaN) group means. -/
def classifyInsight (mean_tumor mean_eczema : ℚ) : String × String :=
  if mean_tumor > mean_eczema then
    if mean_tumor - mean_eczema > 1/2 then
      ("SIGNIFICANTLY HIGHER", "#d9534f")
    else
      ("Slightly Higher", "#f0ad4e")
  else
    ("Lower or Same", "#5cb85c")

/-- The same classification when either mean may be NaN (`none`): a NaN
operand makes `mean_tumor > mean_eczema` false, so the code takes the
`else` branch of line 169 and reports "Lower or Same". -/
def insightTrend (mean_tumor mean_eczema : Option ℚ) : String × String :=
  match mean_tumor, mean_eczema with
  | some a, some b => classifyInsight a b
  | _, _ => ("Lower or Same", "#5cb85c")

/-- One gene's expression column of `adata.X`, seen through the two reads
the script attempts in `app.py` lines 136–140: `toarray` is the result of
`adata[:, g].X.toarray().flatten()` and `flatten` the result of the direct
`adata[:, g].X.flatten()`; `none` means the call raises. -/
structure XCol where
  toarray : Option (List ℚ)
  flatten : Option (List ℚ)
deriving DecidableEq

/-- A column is readable when at least one of the two reads succeeds: an
annotated matrix is either sparse (first read works) or dense (second
works), per the data-model invariant. -/
def XCol.readable (c : XCol) : Bool :=
  c.toarray.isSome || c.flatten.isSome

/-- The dataset handle: feature index (`adata.var_names`), the expression
column for each symbol of the index, and the per-cell `condition` labels
(`adata.obs` column used by the script). -/
structure AnnData where
  var_names : List String
  cols : String → XCol
  condition : List String

/-- `app.py` lines 136–140: try the sparse-to-dense read first; on any
exception fall back to the direct dense read; if that also raises the
exception propagates (`none`). -/
def expression_values (c : XCol) : Option (List ℚ) :=
  match c.toarray with
  | some v => some v
  | none => c.flatten

/-- Pandas `Series.mean`: NaN (modelled `none`) on an empty selection,
otherwise the arithmetic mean. -/
def seriesMean (l : List ℚ) : Option ℚ :=
  if l.isEmpty then none else some (l.sum / l.length)

/-- `df_plot[df_plot.Condition == cond].Expression` for the
(condition, expression) rows of `df_plot` built at lines 142–145. -/
def conditionColumn (df : List (String × ℚ)) (cond : String) : List ℚ :=
  (df.filter (fun p => p.1 = cond)).map (fun p => p.2)

/-- Outcome of the insight block (lines 165–193): either the detailed
markdown summary (gene, the two means, trend, colour) or the generic
`st.info` insufficient-data notice of the `except` branch. -/
inductive InsightOut where
  | detailed (gene : String) (mean_tumor mean_eczema : Option ℚ)
      (trend color : String)
  | notice
deriving DecidableEq

/-- The insight block of lines 165–190.  None of the modelled operations
raises for any `df_plot`: pandas returns NaN for the mean of an empty
selection, NaN comparisons are false, and `:.2f` formatting of NaN yields
the text `nan` — so the `except` branch (the notice) is unreachable here
and the detailed summary is always rendered. -/
def insightBlock (gene : String) (df : List (String × ℚ)) : InsightOut :=
  let mean_tumor := seriesMean (conditionColumn df "CTCL (Tumor)")
  let mean_eczema := seriesMean (conditionColumn df "Eczema (Benign)")
  let tc := insightTrend mean_tumor mean_eczema
  InsightOut.detailed gene mean_tumor mean_eczema tc.1 tc.2

/-- The radio choice "Color Cells By:" of line 95. -/
inductive ViewOption where
  | geneExpression
  | clinicalCondition
deriving DecidableEq

/-- The embedding scatter figure: which column colours the cells, the
colormap or categorical palette, the title, and whether a legend is drawn
outside the axes, mirroring the two `sc.pl.umap` calls. -/
structure UmapFig where
  color : String
  cmap : Option String
  palette : Option String
  title : String
  legendOutside : Bool
deriving DecidableEq

/-- The violin figure of lines 147–158: its data table plus the fixed
styling the script applies. -/
structure ViolinFig where
  data : List (String × ℚ)
  palette : String
  xtickRotation : ℕ
  despined : Bool
deriving DecidableEq

/-- A figure handed to `st.pyplot` during the pass, in order. -/
inductive Shown where
  | umapPlot (f : UmapFig)
  | violinPlot (f : ViolinFig)
deriving DecidableEq

def Shown.isUmap : Shown → Bool
  | .umapPlot _ => true
  | .violinPlot _ => false

def Shown.isViolin : Shown → Bool
  | .umapPlot _ => false
  | .violinPlot _ => true

/-- The user-visible outcome of one run of the main dashboard section:
the page title, the `st.error` message if any, the figures displayed, the
insight outcome, and whether an uncaught exception aborted the pass. -/
structure RenderOutput where
  title : String
  errorMsg : Option String
  shown : List Shown
  insight : Option InsightOut
  crashed : Bool
deriving DecidableEq

/-- The `st.error` text of line 87 (quotation punctuation around the
symbol omitted): it names the gene and explains the reduced panel. -/
def notFoundMsg (gene : String) : String :=
  "Gene " ++ gene ++ " not found. Note: This lightweight app only " ++
    "contains top 5,000 variable genes and clinical markers."

/-- The `sc.pl.umap` call selected by the radio value, lines 103–126. -/
def renderUmap (gene : String) (view : ViewOption) : UmapFig :=
  match view with
  | .geneExpression =>
      { color := gene, cmap := some "viridis", palette := none,
        title := gene ++ " Expression", legendOutside := false }
  | .clinicalCondition =>
      { color := "condition", cmap := none, palette := some "Set1",
        title := "Clinical Diagnosis", legendOutside := true }

/-- The main dashboard, `app.py` lines 83–193, for one already-uppercased
gene string and one radio value: validate membership in the feature
index; if absent show the error and nothing else; if present show the
embedding figure, then extract the expression vector (aborting the pass
if both reads raise), show the violin figure and run the insight block. -/
def renderMain (adata : AnnData) (gene_input : String)
    (view : ViewOption) : RenderOutput :=
  let title := "Gene Expression: *" ++ gene_input ++ "*"
  if gene_input ∈ adata.var_names then
    let umap := renderUmap gene_input view
    match expression_values (adata.cols gene_input) with
    | none =>
        { title := title, errorMsg := none, shown := [Shown.umapPlot umap],
          insight := none, crashed := true }
    | some vals =>
        let df_plot := adata.condition.zip vals
        let vio : ViolinFig :=
          { data := df_plot, palette := "Set2", xtickRotation := 45,
            despined := true }
        { title := title, errorMsg := none,
          shown := [Shown.umapPlot umap, Shown.violinPlot vio],
          insight := some (insightBlock gene_input df_plot),
          crashed := false }
  else
    { title := title, errorMsg := some (notFoundMsg gene_input),
      shown := [], insight := none, crashed := false }

/-- One interaction's inputs to a script run: which quick-select buttons
report a click this pass, the text currently in the gene text box
(`none` when the user left the box showing its default value), and the
radio choice. -/
structure Interaction where
  btnTOX : Bool
  btnCCR4 : Bool
  btnCD3E : Bool
  btnMKI67 : Bool
  typed : Option String
  view : ViewOption

/-- Lines 53–67: initialise `st.session_state.gene` to "TOX" when absent,
then apply the four quick-select button handlers in program order. -/
def sessionGeneAfterButtons (st0 : Option String) (i : Interaction) : String :=
  let s1 := st0.getD "TOX"
  let s2 := if i.btnTOX then "TOX" else s1
  let s3 := if i.btnCCR4 then "CCR4" else s2
  let s4 := if i.btnCD3E then "CD3E" else s3
  if i.btnMKI67 then "MKI67" else s4

/-- One full top-to-bottom run of the script for one interaction: update
the session gene from the buttons, read the text box (whose default is
the session gene) and uppercase it into `gene_input` (line 72) — without
writing it back to the session state — then run the main dashboard.
Returns the session gene left for the next pass and the render output. -/
def scriptPass (adata : AnnData) (st0 : Option String)
    (i : Interaction) : String × RenderOutput :=
  let sGene := sessionGeneAfterButtons st0 i
  let gene_input := pyUpper (i.typed.getD sGene)
  (sGene, renderMain adata gene_input i.view)

/-- Process state for the `st.cache_resource` cache on `load_data`:
the cached handle if any, and how many times the h5ad file has been
read from disk. -/
structure ProcState where
  cache : Option AnnData
  readCount : ℕ

/-- `load_data` (lines 37–42) under `st.cache_resource`: the first call
reads the file (here `file`, the parsed content of `ctcl_app_light.h5ad`)
and caches the handle; later calls return the cached handle and perform
no I/O. -/
def load_data (file : AnnData) (s : ProcState) : AnnData × ProcState :=
  match s.cache with
  | some h => (h, s)
  | none => (file, { cache := some file, readCount := s.readCount + 1 })

/-- A small concrete dataset for instantiations: one gene "TOX" with a
sparse column, one tumor cell (expression 2) and one eczema cell
(expression 1). -/
def sampleData : AnnData :=
  { var_names := ["TOX"],
    cols := fun _ => { toarray := some [2, 1], flatten := none },
    condition := ["CTCL (Tumor)", "Eczema (Benign)"] }

/-- A concrete dataset whose condition column has zero "CTCL (Tumor)"
rows: one eczema cell (expression 1) and one normal cell (expression 2). -/
def nanData : AnnData :=
  { var_names := ["TOX"],
    cols := fun _ => { toarray := some [1, 2], flatten := none },
    condition := ["Eczema (Benign)", "Normal"] }

/-- A concrete dataset whose expression column fails both reads. -/
def brokenData : AnnData :=
  { var_names := ["TOX"],
    cols := fun _ => { toarray := none, flatten := none },
    condition := ["CTCL (Tumor)", "Eczema (Benign)"] }

/-- A concrete dataset whose only feature-index entry is lowercase. -/
def lowerData : AnnData :=
  { var_names := ["tox"],
    cols := fun _ => { toarray := some [2, 1], flatten := none },
    condition := ["CTCL (Tumor)", "Eczema (Benign)"] }

/-- An interaction with no button clicks and an untouched text box. -/
def noClicks : Interaction :=
  { btnTOX := false, btnCCR4 := false, btnCD3E := false,
    btnMKI67 := false, typed := none, view := ViewOption.geneExpression }

/-- A readable column yields a value from the try/fallback extraction. -/
theorem expression_values_total (c : XCol) (h : c.readable = true) :
    ∃ v, expression_values c = some v := by
  unfold XCol.readable at h
  unfold expression_values
  rcases ht : c.toarray with _ | v
  · rw [ht] at h
    simp only [Option.isSome_none, Bool.false_or] at h
    exact Option.isSome_iff_exists.mp h
  · exact ⟨v, rfl⟩

/-- Uppercasing a character never yields an ASCII lowercase letter. -/
theorem isAsciiLower_pyUpperChar (c : Char) :
    isAsciiLower (pyUpperChar c) = false := by
  unfold pyUpperChar
  by_cases h : 97 ≤ c.toNat ∧ c.toNat ≤ 122
  · rw [if_pos h]
    obtain ⟨h1, h2⟩ := h
    generalize c.toNat = n at h1 h2
    interval_cases n <;> decide
  · rw [if_neg h]
    exact decide_eq_false h

/-- No character of an uppercased string is an ASCII lowercase letter. -/
theorem pyUpper_no_lower (s : String) (c : Char)
    (h : c ∈ (pyUpper s).data) : isAsciiLower c = false := by
  unfold pyUpper at h
  obtain ⟨d, _, hd⟩ := List.mem_map.mp h
  exact hd ▸ isAsciiLower_pyUpperChar d
/-- C1: the insight classification is a pure function of the pair of means:
tier "SIGNIFICANTLY HIGHER" (red) when `mean_tumor > mean_eczema` and the
difference exceeds 0.5, "Slightly Higher" (orange) when higher by at most
0.5, "Lower or Same" (green) whenever `mean_tumor ≤ mean_eczema`; and the
three quoted example pairs map to the stated tiers. -/
theorem insight_classification_cases (mt me : ℚ) :
    (mt > me ∧ mt - me > 1/2 →
      classifyInsight mt me = ("SIGNIFICANTLY HIGHER", "#d9534f")) ∧
    (mt > me ∧ mt - me ≤ 1/2 →
      classifyInsight mt me = ("Slightly Higher", "#f0ad4e")) ∧
    (mt ≤ me → classifyInsight mt me = ("Lower or Same", "#5cb85c")) ∧
    classifyInsight 2 (13/10) = ("SIGNIFICANTLY HIGHER", "#d9534f") ∧
    classifyInsight (3/2) (13/10) = ("Slightly Higher", "#f0ad4e") ∧
    classifyInsight 1 1 = ("Lower or Same", "#5cb85c") := by
  refine ⟨?_, ?_, ?_, by norm_num [classifyInsight], by norm_num [classifyInsight],
    by norm_num [classifyInsight]⟩
  · rintro ⟨h1, h2⟩
    unfold classifyInsight
    rw [if_pos h1, if_pos h2]
  · rintro ⟨h1, h2⟩
    unfold classifyInsight
    rw [if_pos h1, if_neg (not_lt.mpr h2)]
  · intro h
    unfold classifyInsight
    rw [if_neg (not_lt.mpr h)]

/-- Witness for `insight_classification_cases`: instantiating at the three
example pairs and discharging the hypotheses concretely. -/
theorem insight_classification_cases_witness :
    classifyInsight 2 (13/10) = ("SIGNIFICANTLY HIGHER", "#d9534f") ∧
    classifyInsight (3/2) (13/10) = ("Slightly Higher", "#f0ad4e") ∧
    classifyInsight 1 1 = ("Lower or Same", "#5cb85c") :=
  ⟨(insight_classification_cases 2 (13/10)).1 (by norm_num),
   ((insight_classification_cases (3/2) (13/10)).2.1 (by norm_num)),
   ((insight_classification_cases 1 1).2.2.1 (by norm_num))⟩


/-- C2 (refuted — code bug): on a render pass whose (condition, expression)
table has zero "CTCL (Tumor)" rows, pandas returns NaN for that group's
mean without raising, the NaN comparison takes the `else` branch, and the
code renders the detailed summary (trend "Lower or Same", means formatted
as `nan`) rather than the generic insufficient-data notice of the `except`
branch; the pass does not crash. -/
theorem insight_zero_tumor_rows_shows_detailed :
    (renderMain nanData "TOX" ViewOption.geneExpression).insight =
      some (InsightOut.detailed "TOX" none (some 1)
        "Lower or Same" "#5cb85c") ∧
    (renderMain nanData "TOX" ViewOption.geneExpression).insight ≠
      some InsightOut.notice ∧
    (renderMain nanData "TOX" ViewOption.geneExpression).crashed = false := by
  refine ⟨?_, ?_, ?_⟩ <;>
    simp [renderMain, nanData, expression_values, insightBlock, seriesMean,
      conditionColumn, insightTrend, renderUmap, List.zip]

/-- C3: when the (uppercased) gene symbol is not in the feature index, the
pass shows only the error message — which names the gene and explains the
reduced feature panel — and produces no figure and no insight summary. -/
theorem gene_not_found_renders_error_only (adata : AnnData) (g : String)
    (view : ViewOption) (h : g ∉ adata.var_names) :
    renderMain adata g view =
      { title := "Gene Expression: *" ++ g ++ "*",
        errorMsg := some (notFoundMsg g),
        shown := [], insight := none, crashed := false } ∧
    notFoundMsg g = "Gene " ++ g ++ " not found. Note: This lightweight " ++
      "app only contains top 5,000 variable genes and clinical markers." := by
  constructor
  · unfold renderMain
    rw [if_neg h]
  · unfold notFoundMsg
    simp [String.append_assoc]

/-- Witness for `gene_not_found_renders_error_only`: the symbol "ABCD" is
not in `sampleData`'s feature index, and the pass renders only the error. -/
theorem gene_not_found_renders_error_only_witness :
    "ABCD" ∉ sampleData.var_names ∧
    renderMain sampleData "ABCD" ViewOption.geneExpression =
      { title := "Gene Expression: *ABCD*",
        errorMsg := some (notFoundMsg "ABCD"),
        shown := [], insight := none, crashed := false } :=
  ⟨by decide,
   (gene_not_found_renders_error_only sampleData "ABCD"
     ViewOption.geneExpression (by decide)).1⟩

/-- C4: when the gene symbol is in the feature index (and its column is
readable, i.e. the matrix is sparse or dense as the data model requires),
the pass displays exactly one embedding scatter figure and exactly one
distribution figure. -/
theorem gene_found_renders_both_plots (adata : AnnData) (g : String)
    (view : ViewOption) (hmem : g ∈ adata.var_names)
    (hread : (adata.cols g).readable = true) :
    (renderMain adata g view).shown.countP Shown.isUmap = 1 ∧
    (renderMain adata g view).shown.countP Shown.isViolin = 1 := by
  obtain ⟨v, hv⟩ := expression_values_total (adata.cols g) hread
  unfold renderMain
  rw [if_pos hmem, hv]
  simp [List.countP_cons, Shown.isUmap, Shown.isViolin]

/-- Witness for `gene_found_renders_both_plots`: "TOX" is in
`sampleData`'s index with a readable column, and the pass shows one
figure of each kind. -/
theorem gene_found_renders_both_plots_witness :
    "TOX" ∈ sampleData.var_names ∧
    (sampleData.cols "TOX").readable = true ∧
    (renderMain sampleData "TOX" ViewOption.geneExpression).shown.countP
      Shown.isUmap = 1 ∧
    (renderMain sampleData "TOX" ViewOption.geneExpression).shown.countP
      Shown.isViolin = 1 :=
  ⟨by decide, by decide,
   (gene_found_renders_both_plots sampleData "TOX" ViewOption.geneExpression
     (by decide) (by decide)).1,
   (gene_found_renders_both_plots sampleData "TOX" ViewOption.geneExpression
     (by decide) (by decide)).2⟩

/-- C5: the typed gene text is uppercased before any lookup, so two typed
strings with the same uppercase form give the exact same session outcome
and render output. -/
theorem free_text_case_insensitive (adata : AnnData) (st0 : Option String)
    (i : Interaction) (s t : String) (h : pyUpper s = pyUpper t) :
    scriptPass adata st0 { i with typed := some s } =
    scriptPass adata st0 { i with typed := some t } := by
  simp [scriptPass, sessionGeneAfterButtons, h]

/-- Witness for `free_text_case_insensitive`: typing "tox" and "TOX"
yield identical passes on `sampleData`. -/
theorem free_text_case_insensitive_witness :
    pyUpper "tox" = pyUpper "TOX" ∧
    scriptPass sampleData none { noClicks with typed := some "tox" } =
    scriptPass sampleData none { noClicks with typed := some "TOX" } :=
  ⟨by decide,
   free_text_case_insensitive sampleData none noClicks "tox" "TOX"
     (by decide)⟩

/-- C6: with an empty cache, the first `load_data` call reads the file
once; the second call returns the very same handle and state with no
additional read. -/
theorem load_data_cached_idempotent (file : AnnData) (s0 : ProcState)
    (h : s0.cache = none) :
    (load_data file (load_data file s0).2).1 = (load_data file s0).1 ∧
    (load_data file (load_data file s0).2).2 = (load_data file s0).2 ∧
    (load_data file s0).2.readCount = s0.readCount + 1 ∧
    (load_data file (load_data file s0).2).2.readCount =
      s0.readCount + 1 := by
  simp [load_data, h]

/-- Witness for `load_data_cached_idempotent` on a fresh process state. -/
theorem load_data_cached_idempotent_witness :
    (⟨none, 0⟩ : ProcState).cache = none ∧
    (load_data sampleData (load_data sampleData ⟨none, 0⟩).2).1 =
      (load_data sampleData ⟨none, 0⟩).1 ∧
    (load_data sampleData ⟨none, 0⟩).2.readCount = 1 :=
  ⟨rfl,
   (load_data_cached_idempotent sampleData ⟨none, 0⟩ rfl).1,
   (load_data_cached_idempotent sampleData ⟨none, 0⟩ rfl).2.2.1⟩

/-- C7: the extraction tries the sparse-to-dense read first and returns
its value when it succeeds; when it raises, the single fallback (the
direct dense read) is used; when both raise the error propagates: the
pass aborts, shows no distribution figure and runs no insight block. -/
theorem extraction_fallback_policy (c : XCol) :
    (∀ v, c.toarray = some v → expression_values c = some v) ∧
    (∀ w, c.toarray = none → c.flatten = some w →
      expression_values c = some w) ∧
    (c.toarray = none → c.flatten = none →
      ∀ (adata : AnnData) (g : String) (view : ViewOption),
        g ∈ adata.var_names → adata.cols g = c →
        (renderMain adata g view).crashed = true ∧
        (renderMain adata g view).shown.countP Shown.isViolin = 0 ∧
        (renderMain adata g view).insight = none) := by
  refine ⟨?_, ?_, ?_⟩
  · intro v hv
    unfold expression_values
    rw [hv]
  · intro w h1 h2
    unfold expression_values
    rw [h1, h2]
  · intro h1 h2 adata g view hmem hcol
    have hnone : expression_values (adata.cols g) = none := by
      unfold expression_values
      rw [hcol, h1, h2]
    unfold renderMain
    rw [if_pos hmem, hnone]
    simp [List.countP_cons, Shown.isViolin]

/-- Witness for `extraction_fallback_policy`: a sparse read that
succeeds, a dense fallback that succeeds, and `brokenData` where both
fail and the pass aborts without a distribution figure. -/
theorem extraction_fallback_policy_witness :
    expression_values { toarray := some [2, 1], flatten := none } =
      some [2, 1] ∧
    expression_values { toarray := none, flatten := some [3] } =
      some [3] ∧
    (renderMain brokenData "TOX" ViewOption.geneExpression).crashed =
      true ∧
    (renderMain brokenData "TOX" ViewOption.geneExpression).shown.countP
      Shown.isViolin = 0 ∧
    (renderMain brokenData "TOX" ViewOption.geneExpression).insight =
      none := by
  have h3 := (extraction_fallback_policy
    { toarray := none, flatten := none }).2.2 rfl rfl brokenData "TOX"
    ViewOption.geneExpression (by decide) rfl
  exact ⟨(extraction_fallback_policy
      { toarray := some [2, 1], flatten := none }).1 [2, 1] rfl,
    (extraction_fallback_policy
      { toarray := none, flatten := some [3] }).2.1 [3] rfl rfl,
    h3.1, h3.2.1, h3.2.2⟩

/-- C8: for a validated gene, switching the radio between the two modes
leaves the distribution figure, the insight outcome, the title, the error
slot and the crash status unchanged, and changes only the embedding
figure: continuous "viridis" colouring titled with the gene in expression
mode, categorical "Set1" colouring with the fixed "Clinical Diagnosis"
title and an outside legend in condition mode. -/
theorem view_mode_changes_only_umap (adata : AnnData) (g : String)
    (hmem : g ∈ adata.var_names) :
    (renderMain adata g ViewOption.geneExpression).shown.filter
        Shown.isViolin =
      (renderMain adata g ViewOption.clinicalCondition).shown.filter
        Shown.isViolin ∧
    (renderMain adata g ViewOption.geneExpression).insight =
      (renderMain adata g ViewOption.clinicalCondition).insight ∧
    (renderMain adata g ViewOption.geneExpression).title =
      (renderMain adata g ViewOption.clinicalCondition).title ∧
    (renderMain adata g ViewOption.geneExpression).errorMsg =
      (renderMain adata g ViewOption.clinicalCondition).errorMsg ∧
    (renderMain adata g ViewOption.geneExpression).crashed =
      (renderMain adata g ViewOption.clinicalCondition).crashed ∧
    renderUmap g ViewOption.geneExpression =
      { color := g, cmap := some "viridis", palette := none,
        title := g ++ " Expression", legendOutside := false } ∧
    renderUmap g ViewOption.clinicalCondition =
      { color := "condition", cmap := none, palette := some "Set1",
        title := "Clinical Diagnosis", legendOutside := true } := by
  unfold renderMain
  rcases hv : expression_values (adata.cols g) with _ | vals <;>
    simp [if_pos hmem, hv, renderUmap, List.filter, Shown.isViolin]

/-- Witness for `view_mode_changes_only_umap` at `sampleData` and "TOX". -/
theorem view_mode_changes_only_umap_witness :
    "TOX" ∈ sampleData.var_names ∧
    (renderMain sampleData "TOX" ViewOption.geneExpression).shown.filter
        Shown.isViolin =
      (renderMain sampleData "TOX" ViewOption.clinicalCondition).shown.filter
        Shown.isViolin ∧
    (renderMain sampleData "TOX" ViewOption.geneExpression).insight =
      (renderMain sampleData "TOX" ViewOption.clinicalCondition).insight :=
  ⟨by decide,
   (view_mode_changes_only_umap sampleData "TOX" (by decide)).1,
   (view_mode_changes_only_umap sampleData "TOX" (by decide)).2.1⟩

/-- C9: the session-stored gene is determined by the quick-select buttons
alone — the typed text never changes it, and with no button clicked it
keeps its stored (or default) value — while the typed text, uppercased,
is what the current pass actually renders. -/
theorem typed_text_never_mutates_session (adata : AnnData)
    (st0 : Option String) (i : Interaction) :
    (scriptPass adata st0 i).1 = sessionGeneAfterButtons st0 i ∧
    (∀ t1 t2 : Option String,
      (scriptPass adata st0 { i with typed := t1 }).1 =
      (scriptPass adata st0 { i with typed := t2 }).1) ∧
    (i.btnTOX = false → i.btnCCR4 = false → i.btnCD3E = false →
      i.btnMKI67 = false → (scriptPass adata st0 i).1 = st0.getD "TOX") ∧
    (∀ t : String,
      (scriptPass adata st0 { i with typed := some t }).2 =
      renderMain adata (pyUpper t) i.view) := by
  refine ⟨rfl, ?_, ?_, ?_⟩
  · intro t1 t2
    simp [scriptPass, sessionGeneAfterButtons]
  · intro h1 h2 h3 h4
    simp [scriptPass, sessionGeneAfterButtons, h1, h2, h3, h4]
  · intro t
    simp [scriptPass]

/-- Witness for `typed_text_never_mutates_session`: typing "cd3e" with no
button clicked leaves the stored default "TOX" in place while the pass
renders the uppercased typed gene. -/
theorem typed_text_never_mutates_session_witness :
    noClicks.btnTOX = false ∧
    (scriptPass sampleData none
      { noClicks with typed := some "cd3e" }).1 = "TOX" ∧
    (scriptPass sampleData none
      { noClicks with typed := some "cd3e" }).2 =
      renderMain sampleData (pyUpper "cd3e") noClicks.view :=
  ⟨rfl,
   (typed_text_never_mutates_session sampleData none
     { noClicks with typed := some "cd3e" }).2.2.1 rfl rfl rfl rfl,
   (typed_text_never_mutates_session sampleData none noClicks).2.2.2
     "cd3e"⟩

/-- C10: an uppercased input never equals a feature-index entry that
contains an ASCII lowercase letter, so such an entry is unmatchable from
the text box; in a dataset all of whose entries contain a lowercase
letter, every pass ends in the not-found outcome with no figures. -/
theorem lowercase_entry_never_matched (e : String)
    (he : ∃ c ∈ e.data, isAsciiLower c = true) :
    (∀ input : String, pyUpper input ≠ e) ∧
    (∀ (adata : AnnData) (st0 : Option String) (i : Interaction),
      (∀ v ∈ adata.var_names, ∃ c ∈ v.data, isAsciiLower c = true) →
      ((scriptPass adata st0 i).2.errorMsg).isSome = true ∧
      (scriptPass adata st0 i).2.shown = [] ∧
      (scriptPass adata st0 i).2.insight = none) := by
  constructor
  · intro input heq
    obtain ⟨c, hc, hlow⟩ := he
    rw [← heq] at hc
    rw [pyUpper_no_lower input c hc] at hlow
    exact Bool.false_ne_true hlow
  · intro adata st0 i hall
    have hnim : pyUpper (i.typed.getD (sessionGeneAfterButtons st0 i)) ∉
        adata.var_names := by
      intro hmem
      obtain ⟨c, hc, hlow⟩ := hall _ hmem
      rw [pyUpper_no_lower _ c hc] at hlow
      exact Bool.false_ne_true hlow
    show ((renderMain adata _ i.view).errorMsg).isSome = true ∧
      (renderMain adata _ i.view).shown = [] ∧
      (renderMain adata _ i.view).insight = none
    unfold renderMain
    rw [if_neg hnim]
    exact ⟨rfl, rfl, rfl⟩

/-- Witness for `lowercase_entry_never_matched`: the lowercase entry
"tox" of `lowerData` is unmatchable — typing "tox" itself yields "TOX" —
and every pass over `lowerData` ends in the not-found outcome. -/
theorem lowercase_entry_never_matched_witness :
    (∃ c ∈ "tox".data, isAsciiLower c = true) ∧
    pyUpper "tox" ≠ "tox" ∧
    ((scriptPass lowerData none
      { noClicks with typed := some "tox" }).2.errorMsg).isSome = true ∧
    (scriptPass lowerData none
      { noClicks with typed := some "tox" }).2.shown = [] :=
  ⟨by decide,
   (lowercase_entry_never_matched "tox" (by decide)).1 "tox",
   ((lowercase_entry_never_matched "tox" (by decide)).2 lowerData none
     { noClicks with typed := some "tox" } (by decide)).1,
   ((lowercase_entry_never_matched "tox" (by decide)).2 lowerData none
     { noClicks with typed := some "tox" } (by decide)).2.1⟩
